import Mathlib

/-!
Shallow embedding of the TCP packet codec of the port-scanner repository.

Bytes are modelled as natural numbers (with explicit bounds where the code
relies on byte range), byte strings as lists of naturals, Python exceptions
as an explicit error type, and Python None results as Option.none.

The files embedded from the source tree:
  src/port_scanner/utils/utils.py                      (Utils)
  src/port_scanner/layers/tcp/tcp_packet.py            (LayersTcp.TcpPacket)
  src/port_scanner/layers/transport/tcp/tcp_packet.py  (LayersTransport.TcpPacket)
  src/nally/core/layers/transport/tcp/tcp_control_bits.py (TcpControlBits)

Helper modules that the source imports but that are not part of the source
tree (TcpOptions, TcpUtils, TransportLayerUtils, IpPacket, the Packet and
BitFlags base classes) are modelled from the specification; each such
definition carries a doc comment starting with "Modelled from the spec:".
-/

set_option maxRecDepth 8000

namespace PortScanner

/-- Big-endian packing of a 16-bit value, as done by struct.pack with format
character H: two bytes, most significant first. -/
def pack16 (n : Nat) : List Nat := [n / 256 % 256, n % 256]

/-- Big-endian packing of a 32-bit value, as done by struct.pack with format
character I: four bytes, most significant first. -/
def pack32 (n : Nat) : List Nat :=
  [n / 16777216 % 256, n / 65536 % 256, n / 256 % 256, n % 256]

namespace Utils

/-- Embeds Utils.set_bit (src/port_scanner/utils/utils.py): returns
num | bit_mask when value is true and num & ~bit_mask when value is false.
On nonnegative Python integers num & ~bit_mask equals num - (num & bit_mask),
which is the form used here because Nat has no bitwise complement. -/
def set_bit (num : Nat) (bit_mask : Nat) (value : Bool) : Nat :=
  if value then num ||| bit_mask
  else num - (num &&& bit_mask)

/-- Embeds Utils.is_bit_set (src/port_scanner/utils/utils.py):
bits & bit_mask != 0. -/
def is_bit_set (bits : Nat) (bit_mask : Nat) : Bool :=
  bits &&& bit_mask != 0

/-- Embeds the summation loop of Utils.calc_checksum: the loop visits indices
0, 2, 4, ... and reads byte_buffer[i] and byte_buffer[i + 1]; on a list of odd
length the final read byte_buffer[i + 1] is out of bounds and Python raises
IndexError, modelled as none. -/
def sum_words : List Nat → Option Nat
  | [] => some 0
  | [_] => none
  | a :: b :: rest => (sum_words rest).map fun s => ((a <<< 8) + b) + s

/-- Embeds Utils.calc_checksum (src/port_scanner/utils/utils.py): sum the
16-bit big-endian word pairs, add the high bits of the accumulator back once
(checksum += checksum >> 16, with no masking of the low half), then return
~checksum & 0xffff, which for a nonnegative accumulator s equals
65535 - s % 65536. A none result models the IndexError on odd-length input. -/
def calc_checksum (byte_buffer : List Nat) : Option Nat :=
  (sum_words byte_buffer).map fun checksum =>
    let folded := checksum + (checksum >>> 16)
    65535 - folded % 65536

end Utils

/-- Written from the words of the spec (section 4.4), for comparison with the
code: pair the bytes into 16-bit big-endian words, padding a trailing odd byte
with a zero low byte. -/
def spec_words : List Nat → List Nat
  | [] => []
  | [a] => [a * 256]
  | a :: b :: rest => (a * 256 + b) :: spec_words rest

/-- Written from the words of the spec (section 4.4): fold the high 16 bits
of the accumulator back into the low 16 bits until no carry remains. The
first argument is fuel; starting it at the accumulator itself is always
enough, since each folding step strictly decreases the value. -/
def fold_carries : Nat → Nat → Nat
  | 0, s => s
  | fuel + 1, s => if s < 65536 then s else fold_carries fuel (s % 65536 + s / 65536)

/-- Written from the words of the spec (section 4.4), for comparison with the
code: the RFC 1071 internet checksum, the bitwise NOT (masked to 16 bits) of
the ones-complement sum of the 16-bit big-endian words. -/
def rfc1071_checksum (byte_buffer : List Nat) : Nat :=
  let s := (spec_words byte_buffer).sum
  65535 - fold_carries s s % 65536

/-- Decidable equality for results, so that concrete runs of the embedded
code can be checked by evaluation. -/
instance {e a : Type} [DecidableEq e] [DecidableEq a] : DecidableEq (Except e a) := fun x y =>
  match x, y with
  | .ok v, .ok w =>
    if h : v = w then isTrue (by rw [h]) else isFalse (by intro hh; cases hh; exact h rfl)
  | .error v, .error w =>
    if h : v = w then isTrue (by rw [h]) else isFalse (by intro hh; cases hh; exact h rfl)
  | .ok _, .error _ => isFalse (by intro hh; cases hh)
  | .error _, .ok _ => isFalse (by intro hh; cases hh)

/-- Python exceptions raised by the embedded code, by kind. -/
inductive PacketError where
  /-- ValueError from TcpUtils.validate_port_num: port out of [0, 65535]. -/
  | invalid_argument
  /-- ValueError from from_bytes: non-zero reserved bits. -/
  | malformed_header
  /-- ValueError from the options decoder. -/
  | malformed_options
  /-- struct.error: wrong buffer size on unpack or field out of range on pack. -/
  | struct_error
  /-- ValueError from the pseudo-header builder: missing or non-IP underlying packet. -/
  | precondition_violation
  /-- ValueError from validate_packet_length. -/
  | length_violation
  /-- AssertionError from the options alignment assert in to_bytes. -/
  | assertion_failed
  /-- IndexError from calc_checksum on odd-length input. -/
  | index_error
deriving DecidableEq, Repr

/-- Embeds TcpControlBits (src/nally/core/layers/transport/tcp/tcp_control_bits.py)
on top of the BitFlags base. Modelled from the spec (section 4.1), the BitFlags
base holds one integer with all bits initially clear. -/
structure TcpControlBits where
  flags : Nat
deriving DecidableEq, Repr

namespace TcpControlBits

/-- Bit mask of the NS flag. -/
def NS : Nat := 256
/-- Bit mask of the CWR flag. -/
def CWR : Nat := 128
/-- Bit mask of the ECE flag. -/
def ECE : Nat := 64
/-- Bit mask of the URG flag. -/
def URG : Nat := 32
/-- Bit mask of the ACK flag. -/
def ACK : Nat := 16
/-- Bit mask of the PSH flag. -/
def PSH : Nat := 8
/-- Bit mask of the RST flag. -/
def RST : Nat := 4
/-- Bit mask of the SYN flag. -/
def SYN : Nat := 2
/-- Bit mask of the FIN flag. -/
def FIN : Nat := 1

/-- Embeds BitFlags.set_flag, which delegates to Utils.set_bit. -/
def set_flag (c : TcpControlBits) (mask : Nat) (value : Bool) : TcpControlBits :=
  ⟨Utils.set_bit c.flags mask value⟩

/-- Embeds BitFlags.is_flag_set, which delegates to Utils.is_bit_set. -/
def is_flag_set (c : TcpControlBits) (mask : Nat) : Bool :=
  Utils.is_bit_set c.flags mask

/-- Embeds the TcpControlBits constructor: starting from all bits clear,
set_flag is applied for each of the nine flags in declaration order. -/
def build (ns cwr ece urg ack psh rst syn fin : Bool) : TcpControlBits :=
  (((((((((⟨0⟩ : TcpControlBits).set_flag NS ns).set_flag
      CWR cwr).set_flag ECE ece).set_flag URG urg).set_flag ACK ack).set_flag
      PSH psh).set_flag RST rst).set_flag SYN syn).set_flag FIN fin

/-- Embeds TcpControlBits.from_int: each of the nine flags is extracted from
the integer with Utils.is_bit_set and passed to the constructor. -/
def from_int (bits : Nat) : TcpControlBits :=
  build (Utils.is_bit_set bits NS) (Utils.is_bit_set bits CWR)
    (Utils.is_bit_set bits ECE) (Utils.is_bit_set bits URG)
    (Utils.is_bit_set bits ACK) (Utils.is_bit_set bits PSH)
    (Utils.is_bit_set bits RST) (Utils.is_bit_set bits SYN)
    (Utils.is_bit_set bits FIN)

/-- Strips leading and trailing whitespace, as the Python str.strip method
does; strings are modelled as lists of characters. -/
def py_strip (s : List Char) : List Char :=
  ((s.dropWhile Char.isWhitespace).reverse.dropWhile Char.isWhitespace).reverse

/-- Embeds the TcpControlBits str conversion: concatenate a lower-case token
followed by one space for each set flag in declaration order (the final fin
token carries no trailing space) and strip the result. -/
def str (c : TcpControlBits) : List Char :=
  py_strip
    ((if c.is_flag_set NS then "ns ".toList else [])
      ++ (if c.is_flag_set CWR then "cwr ".toList else [])
      ++ (if c.is_flag_set ECE then "ece ".toList else [])
      ++ (if c.is_flag_set URG then "urg ".toList else [])
      ++ (if c.is_flag_set ACK then "ack ".toList else [])
      ++ (if c.is_flag_set PSH then "psh ".toList else [])
      ++ (if c.is_flag_set RST then "rst ".toList else [])
      ++ (if c.is_flag_set SYN then "syn ".toList else [])
      ++ (if c.is_flag_set FIN then "fin".toList else []))

end TcpControlBits

/-- Modelled from the spec (section 3): a TCP option is EndOfList (one byte,
value 0), NoOp (one byte, value 1), or a sized option carrying a kind byte
and its value bytes. The spec presents sized values as 32-bit words; the raw
value bytes are kept here, and the Timestamps helper below packs its two
32-bit words into bytes. -/
inductive TcpOption where
  | end_of_list
  | no_op
  | sized (kind : Nat) (value : List Nat)
deriving DecidableEq, Repr

/-- Modelled from the spec (section 3): the Timestamps option, kind 8, with
two 32-bit big-endian values. -/
def TcpOption.timestamps (t1 t2 : Nat) : TcpOption :=
  .sized 8 (pack32 t1 ++ pack32 t2)

/-- Modelled from the spec (section 4.3): the encoding of one option.
EndOfList and NoOp are their single tag byte; a sized option is its kind
byte, a length byte equal to 2 plus the byte length of the value, then the
value bytes. -/
def TcpOption.encode : TcpOption → List Nat
  | .end_of_list => [0]
  | .no_op => [1]
  | .sized kind value => kind :: (2 + value.length) :: value

/-- Modelled from the spec (sections 3 and 4.3): the TcpOptions container
owns an ordered list of options. -/
structure TcpOptions where
  options : List TcpOption
deriving DecidableEq, Repr

/-- The concatenated encodings of a list of options, before padding. -/
def encode_raw (options : List TcpOption) : List Nat :=
  (options.map TcpOption.encode).flatten

/-- Modelled from the spec (section 4.3): encode every option in order, then
append NoOp padding bytes until the total length is a multiple of 4. -/
def TcpOptions.to_bytes (o : TcpOptions) : List Nat :=
  let raw := encode_raw o.options
  raw ++ List.replicate ((4 - raw.length % 4) % 4) 1

/-- Modelled from the spec (section 4.3): sequential scan of the option
bytes. Tag 0 is EndOfList and decoding stops there, the remaining bytes
being padding; tag 1 is NoOp; any other tag reads a length byte L, fails
when L is below 2 or runs past the end of the slice, and otherwise takes
the next L - 2 bytes as the value. The first argument is fuel, one unit per
decoded option; the caller passes the length of the byte list, which always
suffices since every step consumes at least one byte. -/
def decode_options (fuel : Nat) (bytes : List Nat) : Except PacketError (List TcpOption) :=
  match fuel, bytes with
  | _, [] => .ok []
  | 0, _ :: _ => .error .malformed_options
  | fuel + 1, 0 :: _ => .ok [.end_of_list]
  | fuel + 1, 1 :: rest =>
    (decode_options fuel rest).map fun opts => .no_op :: opts
  | fuel + 1, (kind + 2) :: rest =>
    match rest with
    | [] => .error .malformed_options
    | len :: rest2 =>
      if len < 2 then .error .malformed_options
      else if rest2.length < len - 2 then .error .malformed_options
      else (decode_options fuel (rest2.drop (len - 2))).map
        fun opts => .sized (kind + 2) (rest2.take (len - 2)) :: opts

/-- Modelled from the spec (section 4.3): decode a full options byte slice. -/
def TcpOptions.from_bytes (bytes : List Nat) : Except PacketError TcpOptions :=
  (decode_options bytes.length bytes).map fun opts => ⟨opts⟩

/-- Modelled from the spec (section 6): the lower-layer IP packet exposes its
source address bytes, destination address bytes and protocol number. -/
structure IpPacket where
  source_addr_raw : List Nat
  dest_addr_raw : List Nat
  protocol : Nat
deriving DecidableEq, Repr

/-- Embeds the TcpPacket attributes shared by both implementations
(src/port_scanner/layers/tcp/tcp_packet.py and
src/port_scanner/layers/transport/tcp/tcp_packet.py; the classes declare the
same fields). The underlying_packet and upper_layer references come from the
Packet base class, modelled from the spec (sections 6 and 9): a settable
underlying lower-layer reference and an upper-layer back-reference, both
absent on a freshly constructed packet. The upper layer payload object is
abstracted to an identifier, since only its equality is ever used. -/
structure TcpPacket where
  source_port : Nat
  dest_port : Nat
  sequence_number : Nat
  ack_number : Nat
  flags : TcpControlBits
  win_size : Nat
  urg_pointer : Nat
  options : TcpOptions
  payload : List Nat
  underlying_packet : Option IpPacket
  upper_layer : Option Nat
deriving DecidableEq, Repr

namespace TcpUtils

/-- Embeds TcpUtils.TCP_HEADER_LENGTH: the fixed header length in 32-bit
words. -/
def TCP_HEADER_LENGTH : Nat := 5

/-- Embeds TcpUtils.TCP_HEADER_LENGTH_BYTES: the fixed header length in
bytes. -/
def TCP_HEADER_LENGTH_BYTES : Nat := 20

/-- Modelled from the spec (sections 7 and 8, TcpUtils is not in the source
tree): validate_port_num fails with InvalidArgument unless the port is in
[0, 65535]. The argument is an integer, since Python callers may pass
negative values. -/
def validate_port_num (port : Int) : Except PacketError Nat :=
  if 0 ≤ port ∧ port ≤ 65535 then .ok port.toNat else .error .invalid_argument

/-- Modelled from the spec (sections 3 and 6, TcpUtils is not in the source
tree): validate_packet_length checks the total serialized length against the
minimum TCP segment size and the maximum transmissible length and returns
the bytes unchanged. -/
def validate_packet_length (packet_bytes : List Nat) : Except PacketError (List Nat) :=
  if 20 ≤ packet_bytes.length ∧ packet_bytes.length ≤ 65535 then .ok packet_bytes
  else .error .length_violation

/-- Modelled from the spec (sections 4.4 and 9, TcpUtils is not in the source
tree): calc_tcp_checksum is a thin wrapper applying the shared checksum
engine to the concatenation of pseudo-header, header and the rest of the
segment. -/
def calc_tcp_checksum (pseudo_header header rest : List Nat) : Option Nat :=
  Utils.calc_checksum (pseudo_header ++ header ++ rest)

end TcpUtils

/-- Embeds the private get_pseudo_header method of
src/port_scanner/layers/tcp/tcp_packet.py: fails unless the underlying
packet is an IpPacket, then packs source address, destination address, one
zero byte, the protocol number and the 16-bit segment length. -/
def get_pseudo_header (p : TcpPacket) (segment_len : Nat) : Except PacketError (List Nat) :=
  match p.underlying_packet with
  | none => .error .precondition_violation
  | some ip =>
    .ok (ip.source_addr_raw ++ ip.dest_addr_raw ++ [0, ip.protocol] ++ pack16 segment_len)

namespace TransportLayerUtils

/-- Modelled from the spec (section 9, TransportLayerUtils is not in the
source tree; the two module hierarchies differ only in namespace):
validate_port_num, identical to the TcpUtils one. -/
def validate_port_num : Int → Except PacketError Nat :=
  TcpUtils.validate_port_num

/-- Modelled from the spec (section 9): validate_packet_length, identical to
the TcpUtils one. -/
def validate_packet_length : List Nat → Except PacketError (List Nat) :=
  TcpUtils.validate_packet_length

/-- Modelled from the spec (section 9): get_pseudo_header builds the same
pseudo-header from the underlying packet of its argument. -/
def get_pseudo_header : TcpPacket → Nat → Except PacketError (List Nat) :=
  PortScanner.get_pseudo_header

end TransportLayerUtils

/-- Embeds the TcpPacket constructor shared by both implementations: both
ports go through validate_port_num (raising InvalidArgument out of range)
and every other field is stored as passed; the layer references start out
absent. -/
def mk_tcp_packet (source_port dest_port : Int) (sequence_number ack_number : Nat)
    (flags : TcpControlBits) (win_size urg_pointer : Nat) (options : TcpOptions)
    (payload : List Nat) : Except PacketError TcpPacket :=
  match TcpUtils.validate_port_num source_port with
  | .error e => .error e
  | .ok sp =>
    match TcpUtils.validate_port_num dest_port with
    | .error e => .error e
    | .ok dp =>
      .ok { source_port := sp, dest_port := dp, sequence_number := sequence_number,
            ack_number := ack_number, flags := flags, win_size := win_size,
            urg_pointer := urg_pointer, options := options, payload := payload,
            underlying_packet := none, upper_layer := none }

/-- Python slice xs[:n]: a negative bound counts from the end of the list,
clamped at zero. -/
def py_slice_take (xs : List Nat) (n : Int) : List Nat :=
  if 0 ≤ n then xs.take n.toNat else xs.take ((xs.length : Int) + n).toNat

/-- Python slice xs[n:]: a negative bound counts from the end of the list,
clamped at zero. -/
def py_slice_drop (xs : List Nat) (n : Int) : List Nat :=
  if 0 ≤ n then xs.drop n.toNat else xs.drop ((xs.length : Int) + n).toNat

namespace LayersTcp

/-- Embeds TcpPacket.to_bytes of src/port_scanner/layers/tcp/tcp_packet.py:
encode the options, assert 32-bit alignment, compute the data offset, pack
the 16-bit offset-and-flags field as data_offset << 12 | flags, pack the
20-byte header with a zero checksum placeholder, build the pseudo-header
from the underlying IP packet, compute the checksum over pseudo-header plus
header plus options plus payload via TcpUtils.calc_tcp_checksum, overwrite
header bytes 16 and 17 with it, and validate the total length. The range
check mirrors struct.pack, which raises when a field does not fit its
format. -/
def to_bytes (p : TcpPacket) : Except PacketError (List Nat) :=
  let options_bytes := p.options.to_bytes
  if options_bytes.length % 4 ≠ 0 then .error .assertion_failed else
  let data_offset := TcpUtils.TCP_HEADER_LENGTH + options_bytes.length / 4
  let data_offset_flags := data_offset <<< 12 ||| p.flags.flags
  if p.source_port < 65536 ∧ p.dest_port < 65536 ∧ p.sequence_number < 4294967296 ∧
      p.ack_number < 4294967296 ∧ data_offset_flags < 65536 ∧ p.win_size < 65536 ∧
      p.urg_pointer < 65536 then
    let header_buffer :=
      pack16 p.source_port ++ pack16 p.dest_port ++ pack32 p.sequence_number ++
        pack32 p.ack_number ++ pack16 data_offset_flags ++ pack16 p.win_size ++
        pack16 0 ++ pack16 p.urg_pointer
    match get_pseudo_header p (data_offset * 4 + p.payload.length) with
    | .error e => .error e
    | .ok pseudo_header =>
      match TcpUtils.calc_tcp_checksum pseudo_header header_buffer
          (options_bytes ++ p.payload) with
      | none => .error .index_error
      | some checksum =>
        let header_buffer := (header_buffer.set 16 (checksum / 256)).set 17 (checksum % 256)
        TcpUtils.validate_packet_length (header_buffer ++ options_bytes ++ p.payload)
  else .error .struct_error

/-- Embeds the static TcpPacket.from_bytes of
src/port_scanner/layers/tcp/tcp_packet.py: split off the 20-byte header
(struct.unpack fails on any other size), unpack the eight big-endian header
fields, reject non-zero reserved bits, rebuild the flags from the low 9
bits, compute the options length from the data offset (a Python integer
that can go negative, used as a slice bound), decode the options slice and
keep the rest as payload, then construct the packet through the validating
constructor. -/
def from_bytes (packet_bytes : List Nat) : Except PacketError TcpPacket :=
  let header_bytes := packet_bytes.take TcpUtils.TCP_HEADER_LENGTH_BYTES
  let payload_and_options := packet_bytes.drop TcpUtils.TCP_HEADER_LENGTH_BYTES
  if header_bytes.length ≠ 20 then .error .struct_error else
  let b := fun i => header_bytes.getD i 0
  let source_port := b 0 * 256 + b 1
  let dest_port := b 2 * 256 + b 3
  let seq_num := ((b 4 * 256 + b 5) * 256 + b 6) * 256 + b 7
  let ack_num := ((b 8 * 256 + b 9) * 256 + b 10) * 256 + b 11
  let data_offset_flags := b 12 * 256 + b 13
  let win_size := b 14 * 256 + b 15
  let urg_pointer := b 18 * 256 + b 19
  let data_offset := data_offset_flags >>> 12
  let reserved_bits := (data_offset_flags >>> 9) &&& 7
  if reserved_bits ≠ 0 then .error .malformed_header else
  let flags := TcpControlBits.from_int (data_offset_flags &&& 511)
  let options_len : Int := ((data_offset : Int) - TcpUtils.TCP_HEADER_LENGTH) * 4
  match TcpOptions.from_bytes (py_slice_take payload_and_options options_len) with
  | .error e => .error e
  | .ok options =>
    let payload := py_slice_drop payload_and_options options_len
    mk_tcp_packet source_port dest_port seq_num ack_num flags win_size urg_pointer
      options payload

/-- Embeds the instance-to-instance branch of TcpPacket.__eq__ of
src/port_scanner/layers/tcp/tcp_packet.py: field comparisons in source
order, ending with the underlying packet reference. -/
def tcp_packet_eq (p other : TcpPacket) : Bool :=
  p.dest_port == other.dest_port &&
  p.source_port == other.source_port &&
  p.payload == other.payload &&
  p.sequence_number == other.sequence_number &&
  p.ack_number == other.ack_number &&
  p.flags.flags == other.flags.flags &&
  p.win_size == other.win_size &&
  p.urg_pointer == other.urg_pointer &&
  p.options == other.options &&
  p.underlying_packet == other.underlying_packet

end LayersTcp

namespace LayersTransport

/-- Embeds TcpPacket.to_bytes of
src/port_scanner/layers/transport/tcp/tcp_packet.py: identical to the tcp
variant except that the pseudo-header comes from
TransportLayerUtils.get_pseudo_header, the checksum is a direct
Utils.calc_checksum call on the concatenation, and the final length check is
TransportLayerUtils.validate_packet_length. -/
def to_bytes (p : TcpPacket) : Except PacketError (List Nat) :=
  let options_bytes := p.options.to_bytes
  if options_bytes.length % 4 ≠ 0 then .error .assertion_failed else
  let data_offset := TcpUtils.TCP_HEADER_LENGTH + options_bytes.length / 4
  let data_offset_flags := data_offset <<< 12 ||| p.flags.flags
  if p.source_port < 65536 ∧ p.dest_port < 65536 ∧ p.sequence_number < 4294967296 ∧
      p.ack_number < 4294967296 ∧ data_offset_flags < 65536 ∧ p.win_size < 65536 ∧
      p.urg_pointer < 65536 then
    let header_buffer :=
      pack16 p.source_port ++ pack16 p.dest_port ++ pack32 p.sequence_number ++
        pack32 p.ack_number ++ pack16 data_offset_flags ++ pack16 p.win_size ++
        pack16 0 ++ pack16 p.urg_pointer
    match TransportLayerUtils.get_pseudo_header p (data_offset * 4 + p.payload.length) with
    | .error e => .error e
    | .ok pseudo_header =>
      match Utils.calc_checksum (pseudo_header ++ header_buffer ++ options_bytes ++
          p.payload) with
      | none => .error .index_error
      | some checksum =>
        let header_buffer := (header_buffer.set 16 (checksum / 256)).set 17 (checksum % 256)
        TransportLayerUtils.validate_packet_length (header_buffer ++ options_bytes ++ p.payload)
  else .error .struct_error

/-- Embeds the static TcpPacket.from_bytes of
src/port_scanner/layers/transport/tcp/tcp_packet.py, whose body is
line-for-line the same as the tcp variant. -/
def from_bytes (packet_bytes : List Nat) : Except PacketError TcpPacket :=
  let header_bytes := packet_bytes.take TcpUtils.TCP_HEADER_LENGTH_BYTES
  let payload_and_options := packet_bytes.drop TcpUtils.TCP_HEADER_LENGTH_BYTES
  if header_bytes.length ≠ 20 then .error .struct_error else
  let b := fun i => header_bytes.getD i 0
  let source_port := b 0 * 256 + b 1
  let dest_port := b 2 * 256 + b 3
  let seq_num := ((b 4 * 256 + b 5) * 256 + b 6) * 256 + b 7
  let ack_num := ((b 8 * 256 + b 9) * 256 + b 10) * 256 + b 11
  let data_offset_flags := b 12 * 256 + b 13
  let win_size := b 14 * 256 + b 15
  let urg_pointer := b 18 * 256 + b 19
  let data_offset := data_offset_flags >>> 12
  let reserved_bits := (data_offset_flags >>> 9) &&& 7
  if reserved_bits ≠ 0 then .error .malformed_header else
  let flags := TcpControlBits.from_int (data_offset_flags &&& 511)
  let options_len : Int := ((data_offset : Int) - TcpUtils.TCP_HEADER_LENGTH) * 4
  match TcpOptions.from_bytes (py_slice_take payload_and_options options_len) with
  | .error e => .error e
  | .ok options =>
    let payload := py_slice_drop payload_and_options options_len
    mk_tcp_packet source_port dest_port seq_num ack_num flags win_size urg_pointer
      options payload

/-- Embeds the instance-to-instance branch of TcpPacket.__eq__ of
src/port_scanner/layers/transport/tcp/tcp_packet.py: field comparisons in
source order; this variant compares the upper_layer reference where the tcp
variant compares underlying_packet, and compares payload last. -/
def tcp_packet_eq (p other : TcpPacket) : Bool :=
  p.dest_port == other.dest_port &&
  p.source_port == other.source_port &&
  p.upper_layer == other.upper_layer &&
  p.sequence_number == other.sequence_number &&
  p.ack_number == other.ack_number &&
  p.flags.flags == other.flags.flags &&
  p.win_size == other.win_size &&
  p.urg_pointer == other.urg_pointer &&
  p.options == other.options &&
  p.payload == other.payload

end LayersTransport

/-- Operand universe for the Python __eq__ methods, which are called with an
arbitrary object and inspect it with isinstance: a TcpControlBits instance,
an instance of either TcpPacket class, or any other object. -/
inductive PyValue where
  | control_bits (c : TcpControlBits)
  | tcp_packet_layers_tcp (p : TcpPacket)
  | tcp_packet_layers_transport (p : TcpPacket)
  | other (n : Nat)
deriving DecidableEq

/-- Embeds TcpControlBits.__eq__
(src/nally/core/layers/transport/tcp/tcp_control_bits.py): when the operand
is a TcpControlBits instance, compare the packed flag integers; otherwise
the method falls off its end and Python returns None, modelled as none. -/
def TcpControlBits.py_eq (x : TcpControlBits) (y : PyValue) : Option Bool :=
  match y with
  | .control_bits c => some (x.flags == c.flags)
  | _ => none

/-- Embeds TcpPacket.__eq__ of src/port_scanner/layers/tcp/tcp_packet.py:
the field comparison when the operand is an instance of the same class, and
an implicit None otherwise. -/
def LayersTcp.py_eq (p : TcpPacket) (other : PyValue) : Option Bool :=
  match other with
  | .tcp_packet_layers_tcp q => some (LayersTcp.tcp_packet_eq p q)
  | _ => none

/-- Embeds TcpPacket.__eq__ of
src/port_scanner/layers/transport/tcp/tcp_packet.py: the field comparison
when the operand is an instance of the same class, and an implicit None
otherwise. -/
def LayersTransport.py_eq (p : TcpPacket) (other : PyValue) : Option Bool :=
  match other with
  | .tcp_packet_layers_transport q => some (LayersTransport.tcp_packet_eq p q)
  | _ => none

/-- Validity of one option for serialization through the Python byte level:
EndOfList would stop the decoder early, so round-trip statements exclude
it; a sized option must carry a kind byte distinct from the two marker tags
and value bytes whose count fits the length byte. -/
def option_ok : TcpOption → Bool
  | .end_of_list => false
  | .no_op => true
  | .sized kind value =>
    decide (2 ≤ kind) && decide (kind < 256) && decide (value.length + 2 < 256) &&
      value.all fun b => decide (b < 256)

/-- Validity of the underlying packet reference for serialization: present,
with 4-byte IPv4 addresses as in the spec (section 5 of the glossary). -/
def ip_ok : Option IpPacket → Bool
  | none => false
  | some ip => ip.source_addr_raw.length == 4 && ip.dest_addr_raw.length == 4

/-- Validity of a packet value for the round-trip statement: every numeric
field in the range of its wire format, options that the codec can encode
without padding (aligned, no EndOfList), an even-length byte payload (the
checksum engine raises IndexError on odd input), a total length within the
length validator, and a well-formed underlying IP reference. -/
def packet_ok (p : TcpPacket) : Bool :=
  decide (p.source_port < 65536) && decide (p.dest_port < 65536) &&
  decide (p.sequence_number < 4294967296) && decide (p.ack_number < 4294967296) &&
  decide (p.flags.flags < 512) && decide (p.win_size < 65536) &&
  decide (p.urg_pointer < 65536) &&
  p.options.options.all option_ok &&
  decide ((encode_raw p.options.options).length % 4 = 0) &&
  decide ((encode_raw p.options.options).length ≤ 40) &&
  (p.payload.all fun b => decide (b < 256)) &&
  decide (p.payload.length % 2 = 0) &&
  decide (20 + (encode_raw p.options.options).length + p.payload.length ≤ 65535) &&
  ip_ok p.underlying_packet

/-- The fields of a packet other than the two layer references, as one
tuple; the round-trip reproduces exactly these. -/
def packet_fields (p : TcpPacket) :
    Nat × Nat × Nat × Nat × TcpControlBits × Nat × Nat × TcpOptions × List Nat :=
  (p.source_port, p.dest_port, p.sequence_number, p.ack_number, p.flags,
    p.win_size, p.urg_pointer, p.options, p.payload)

/-- Written from the words of the spec (section 3), for comparison with the
string conversion of the code: the names of the set flags, lower case, in
declaration order. -/
def listed_flags (c : TcpControlBits) : List (List Char) :=
  (if c.is_flag_set TcpControlBits.NS then ["ns".toList] else [])
    ++ (if c.is_flag_set TcpControlBits.CWR then ["cwr".toList] else [])
    ++ (if c.is_flag_set TcpControlBits.ECE then ["ece".toList] else [])
    ++ (if c.is_flag_set TcpControlBits.URG then ["urg".toList] else [])
    ++ (if c.is_flag_set TcpControlBits.ACK then ["ack".toList] else [])
    ++ (if c.is_flag_set TcpControlBits.PSH then ["psh".toList] else [])
    ++ (if c.is_flag_set TcpControlBits.RST then ["rst".toList] else [])
    ++ (if c.is_flag_set TcpControlBits.SYN then ["syn".toList] else [])
    ++ (if c.is_flag_set TcpControlBits.FIN then ["fin".toList] else [])

/-- The underlying IP packet of the concrete test scenario:
192.168.1.32 to 35.160.240.60, protocol TCP (6). -/
def sample_ip : IpPacket := ⟨[192, 168, 1, 32], [35, 160, 240, 60], 6⟩

/-- The flags of the concrete test scenario: ACK only. -/
def sample_flags : TcpControlBits :=
  TcpControlBits.build false false false false true false false false false

/-- The options of the concrete test scenario: NoOp, NoOp,
Timestamps(3252488245, 365238493). -/
def sample_options : TcpOptions :=
  ⟨[.no_op, .no_op, TcpOption.timestamps 3252488245 365238493]⟩

/-- The packet of the concrete test scenario of the spec (section 8) and of
the repository test test_to_bytes. -/
def sample_packet : TcpPacket :=
  { source_port := 59700, dest_port := 443, sequence_number := 1407506493,
    ack_number := 3676709599, flags := sample_flags, win_size := 501,
    urg_pointer := 0, options := sample_options, payload := [],
    underlying_packet := some sample_ip, upper_layer := none }

/-- The expected serialization of the concrete test scenario, the byte
sequence with hex form
e93401bb53e4d83ddb2622df801001f5915600000101080ac1dd083515c518dd. -/
def packet_dump_1 : List Nat :=
  [0xe9, 0x34, 0x01, 0xbb, 0x53, 0xe4, 0xd8, 0x3d, 0xdb, 0x26, 0x22, 0xdf,
   0x80, 0x10, 0x01, 0xf5, 0x91, 0x56, 0x00, 0x00, 0x01, 0x01, 0x08, 0x0a,
   0xc1, 0xdd, 0x08, 0x35, 0x15, 0xc5, 0x18, 0xdd]

/-- The sample packet with a one-option list whose encoding is not 32-bit
aligned, so that the serializer appends padding. -/
def pad_packet : TcpPacket := { sample_packet with options := ⟨[.no_op]⟩ }

/-- A 20-byte input whose offset-and-flags field is 0x0200: data offset 0,
reserved bit 9 set, no flags. -/
def c5_input : List Nat :=
  [0, 0, 0, 0, 0, 0, 0, 0, 0, 0, 0, 0, 2, 0, 0, 0, 0, 0, 0, 0]

/-- A 20-byte input whose offset-and-flags field is 0x4000: data offset 4
(below the minimum of 5), reserved bits zero, no flags. -/
def c6_input : List Nat :=
  [0, 0, 0, 0, 0, 0, 0, 0, 0, 0, 0, 0, 0x40, 0, 0, 0, 0, 0, 0, 0]

/-- A second IP packet, distinct from sample_ip. -/
def other_ip : IpPacket := ⟨[10, 0, 0, 1], [10, 0, 0, 2], 6⟩

/-- The sample packet with a different underlying IP packet and the same
upper layer (none): the two equality methods disagree on this pair. -/
def other_ip_packet : TcpPacket := { sample_packet with underlying_packet := some other_ip }

/-! Theorems. -/

theorem and_511_eq_mod (n : Nat) : n &&& 511 = n % 512 := by
  have h := Nat.and_pow_two_sub_one_eq_mod n 9
  norm_num at h
  exact h

theorem and_7_eq_mod (n : Nat) : n &&& 7 = n % 8 := by
  have h := Nat.and_pow_two_sub_one_eq_mod n 3
  norm_num at h
  exact h

theorem lor_shiftLeft_12 (d f : Nat) (hf : f < 4096) : d <<< 12 ||| f = 4096 * d + f := by
  have hf2 : f < 2 ^ 12 := by norm_num at hf ⊢; exact hf
  apply Nat.eq_of_testBit_eq
  intro j
  rw [Nat.testBit_lor, Nat.testBit_shiftLeft,
    show 4096 * d + f = 2 ^ 12 * d + f by norm_num,
    Nat.testBit_mul_pow_two_add d hf2 j]
  rcases Nat.lt_or_ge j 12 with hj | hj
  · simp [hj, Nat.not_le_of_lt hj]
  · have hfj : f.testBit j = false := by
      apply Nat.testBit_lt_two_pow
      calc f < 2 ^ 12 := hf2
      _ ≤ 2 ^ j := Nat.pow_le_pow_right (by norm_num) hj
    simp [hj, Nat.not_lt_of_le hj, hfj]

theorem from_int_small : ∀ n < 512, TcpControlBits.from_int n = ⟨n⟩ := by decide

theorem getD_take20 (bs : List Nat) (i : Nat) (h : i < 20) :
    (bs.take 20).getD i 0 = bs.getD i 0 := by
  rw [List.getD, List.getD, List.get?_take h]

theorem getD_lt_of_forall (bs : List Nat) (i : Nat) (hi : i < bs.length)
    (h : ∀ b ∈ bs, b < 256) : bs.getD i 0 < 256 := by
  rw [List.getD_eq_getElem _ _ hi]
  exact h _ (bs.getElem_mem hi)

/-- C1 counterexample: the serializer output on the concrete scenario is the
stated hex dump, but that dump has 32 bytes, not 34 as the claim says. -/
theorem c1_counterexample :
    LayersTcp.to_bytes sample_packet = .ok packet_dump_1 ∧ packet_dump_1.length ≠ 34 := by
  decide

/-- C1 (amended): on the concrete scenario (source port 59700, dest port
443, sequence 1407506493, ack 3676709599, flags ACK, window 501, urgent 0,
options NoOp NoOp Timestamps(3252488245, 365238493), empty payload, IP
192.168.1.32 to 35.160.240.60, protocol TCP) to_bytes returns exactly the
32-byte sequence with hex e93401bb53e4d83ddb2622df801001f591560000
0101080ac1dd083515c518dd. -/
theorem c1_to_bytes_concrete :
    LayersTcp.to_bytes sample_packet = .ok packet_dump_1 ∧ packet_dump_1.length = 32 := by
  decide

/-- C3: the code computes a single unmasked carry fold (checksum +=
checksum >> 16) and so diverges from the fold-until-no-carry checksum of
the claim: on the even-length input ff ff ff ff 00 01 the code returns
0xFFFF while the RFC 1071 value is 0xFFFE; the all-zero-input part of the
claim does hold. -/
theorem c3_checksum_divergence :
    Utils.calc_checksum [255, 255, 255, 255, 0, 1] = some 65535 ∧
    rfc1071_checksum [255, 255, 255, 255, 0, 1] = 65534 ∧
    Utils.calc_checksum (List.replicate 8 0) = some 65535 := by
  decide

/-- C4: on a one-byte input the code reads byte_buffer[1], which is out of
bounds, so the checksum is not defined there (IndexError, modelled none),
while the zero-padded value the claim prescribes would be 0xFEFF. -/
theorem c4_checksum_odd_divergence :
    Utils.calc_checksum [1] = none ∧ Utils.calc_checksum [1, 0] = some 65279 := by
  decide

/-- C9: for every constructible flag set, the string form is exactly the
space-separated lower-case names of the set flags in declaration order
NS, CWR, ECE, URG, ACK, PSH, RST, SYN, FIN, with no surrounding whitespace;
in particular ACK plus SYN renders as "ack syn". -/
theorem c9_flag_string :
    (∀ ns cwr ece urg ack psh rst syn fin : Bool,
      TcpControlBits.str (TcpControlBits.build ns cwr ece urg ack psh rst syn fin) =
        List.intercalate " ".toList
          (listed_flags (TcpControlBits.build ns cwr ece urg ack psh rst syn fin))) ∧
    TcpControlBits.str
        (TcpControlBits.build false false false false true false false true false) =
      "ack syn".toList := by
  decide

/-- C10: every __eq__ method returns None (not False) on an operand of a
foreign class, and TcpControlBits equality between instances holds exactly
when the packed flag integers are equal. -/
theorem c10_eq_none_for_foreign :
    (∀ (x : TcpControlBits) (y : PyValue), (∀ c, y ≠ PyValue.control_bits c) →
      TcpControlBits.py_eq x y = none) ∧
    (∀ (x : TcpPacket) (y : PyValue), (∀ q, y ≠ PyValue.tcp_packet_layers_tcp q) →
      LayersTcp.py_eq x y = none) ∧
    (∀ (x : TcpPacket) (y : PyValue), (∀ q, y ≠ PyValue.tcp_packet_layers_transport q) →
      LayersTransport.py_eq x y = none) ∧
    (∀ (x c : TcpControlBits),
      TcpControlBits.py_eq x (PyValue.control_bits c) = some true ↔ x.flags = c.flags) := by
  refine ⟨?_, ?_, ?_, ?_⟩
  · intro x y hy
    cases y with
    | control_bits c => exact absurd rfl (hy c)
    | tcp_packet_layers_tcp p => rfl
    | tcp_packet_layers_transport p => rfl
    | other n => rfl
  · intro x y hy
    cases y with
    | control_bits c => rfl
    | tcp_packet_layers_tcp p => exact absurd rfl (hy p)
    | tcp_packet_layers_transport p => rfl
    | other n => rfl
  · intro x y hy
    cases y with
    | control_bits c => rfl
    | tcp_packet_layers_tcp p => rfl
    | tcp_packet_layers_transport p => exact absurd rfl (hy p)
    | other n => rfl
  · intro x c
    simp [TcpControlBits.py_eq]

theorem c10_witness :
    TcpControlBits.py_eq ⟨16⟩ (PyValue.other 0) = none ∧
    LayersTcp.py_eq sample_packet (PyValue.control_bits ⟨16⟩) = none ∧
    LayersTransport.py_eq sample_packet (PyValue.other 3) = none ∧
    (TcpControlBits.py_eq ⟨16⟩ (PyValue.control_bits ⟨16⟩) = some true ↔ (16 : Nat) = 16) :=
  ⟨c10_eq_none_for_foreign.1 ⟨16⟩ _ (by intro c; simp),
   c10_eq_none_for_foreign.2.1 sample_packet _ (by intro q; simp),
   c10_eq_none_for_foreign.2.2.1 sample_packet _ (by intro q; simp),
   c10_eq_none_for_foreign.2.2.2 ⟨16⟩ ⟨16⟩⟩

/-- C8: constructing with port -1 or 65536 (on either side) fails with
InvalidArgument before any serialization is attempted, ports 0 and 65535
are accepted, and every successfully constructed packet already has both
ports within 16 bits, so serialization never has to re-check them. -/
theorem c8_port_bounds :
    mk_tcp_packet (-1) 443 0 0 ⟨0⟩ 65535 0 ⟨[]⟩ [] = .error .invalid_argument ∧
    mk_tcp_packet 65536 443 0 0 ⟨0⟩ 65535 0 ⟨[]⟩ [] = .error .invalid_argument ∧
    mk_tcp_packet 59700 (-1) 0 0 ⟨0⟩ 65535 0 ⟨[]⟩ [] = .error .invalid_argument ∧
    mk_tcp_packet 59700 65536 0 0 ⟨0⟩ 65535 0 ⟨[]⟩ [] = .error .invalid_argument ∧
    (mk_tcp_packet 0 65535 0 0 ⟨0⟩ 65535 0 ⟨[]⟩ []).isOk = true ∧
    (∀ sp dp seq ack fl win urg opts pl p,
      mk_tcp_packet sp dp seq ack fl win urg opts pl = .ok p →
      p.source_port ≤ 65535 ∧ p.dest_port ≤ 65535) := by
  refine ⟨by decide, by decide, by decide, by decide, by decide, ?_⟩
  intro sp dp seq ack fl win urg opts pl p h
  unfold mk_tcp_packet TcpUtils.validate_port_num at h
  by_cases h1 : 0 ≤ sp ∧ sp ≤ 65535
  · rw [if_pos h1] at h
    by_cases h2 : 0 ≤ dp ∧ dp ≤ 65535
    · rw [if_pos h2] at h
      simp only [Except.ok.injEq] at h
      subst h
      constructor <;> simp <;> omega
    · rw [if_neg h2] at h
      simp at h
  · rw [if_neg h1] at h
    simp at h

theorem c8_witness :
    ({ source_port := 0, dest_port := 65535, sequence_number := 0, ack_number := 0,
       flags := ⟨0⟩, win_size := 65535, urg_pointer := 0, options := ⟨[]⟩, payload := [],
       underlying_packet := none, upper_layer := none } : TcpPacket).source_port ≤ 65535 :=
  (c8_port_bounds.2.2.2.2.2 0 65535 0 0 ⟨0⟩ 65535 0 ⟨[]⟩ []
    { source_port := 0, dest_port := 65535, sequence_number := 0, ack_number := 0,
      flags := ⟨0⟩, win_size := 65535, urg_pointer := 0, options := ⟨[]⟩, payload := [],
      underlying_packet := none, upper_layer := none } (by decide)).1

/-- C7 counterexample: on two packets with the same fields and upper layer
but different underlying IP packets, the tcp-namespace equality is false
while the transport-namespace equality is true, so the two implementations
are not behaviorally equivalent as claimed. -/
theorem c7_counterexample :
    LayersTcp.tcp_packet_eq sample_packet other_ip_packet = false ∧
    LayersTransport.tcp_packet_eq sample_packet other_ip_packet = true := by
  decide

/-- C7 (amended): the two implementations have identical from_bytes
behavior on every input and identical to_bytes behavior on every packet,
but their equality predicates differ: the tcp namespace compares the
underlying-packet reference where the transport namespace compares the
upper-layer reference, so they agree exactly on pairs where those two
comparisons have the same outcome. -/
theorem c7_equivalence_amended :
    (∀ bs, LayersTcp.from_bytes bs = LayersTransport.from_bytes bs) ∧
    (∀ p, LayersTcp.to_bytes p = LayersTransport.to_bytes p) ∧
    (∀ p q : TcpPacket,
      ((p.underlying_packet = q.underlying_packet) ↔ (p.upper_layer = q.upper_layer)) →
      LayersTcp.tcp_packet_eq p q = LayersTransport.tcp_packet_eq p q) := by
  refine ⟨fun bs => rfl, ?_, ?_⟩
  · intro p
    simp only [LayersTcp.to_bytes, LayersTransport.to_bytes, TcpUtils.calc_tcp_checksum,
      TransportLayerUtils.get_pseudo_header, TransportLayerUtils.validate_packet_length,
      List.append_assoc]
  intro p q h
  rw [Bool.eq_iff_iff]
  simp only [LayersTcp.tcp_packet_eq, LayersTransport.tcp_packet_eq, Bool.and_eq_true,
    beq_iff_eq]
  constructor
  · intro hh
    tauto
  · intro hh
    tauto

theorem py_slice_take_nil (n : Int) : py_slice_take [] n = [] := by
  unfold py_slice_take
  split <;> simp

theorem py_slice_drop_nil (n : Int) : py_slice_drop [] n = [] := by
  unfold py_slice_drop
  split <;> simp

/-- C5: any input of at least 20 bytes whose offset-and-flags field has one
of the reserved bits 9, 10 or 11 set is rejected by from_bytes with the
malformed-header error. -/
theorem c5_reserved_bits_rejected (bs : List Nat) (hlen : 20 ≤ bs.length)
    (hbit : (bs.getD 12 0 * 256 + bs.getD 13 0).testBit 9 ∨
      (bs.getD 12 0 * 256 + bs.getD 13 0).testBit 10 ∨
      (bs.getD 12 0 * 256 + bs.getD 13 0).testBit 11) :
    LayersTcp.from_bytes bs = .error .malformed_header := by
  have h20 : (bs.take 20).length = 20 := by
    simp [List.length_take]
    omega
  have e12 : (bs.take 20).getD 12 0 = bs.getD 12 0 := getD_take20 bs 12 (by norm_num)
  have e13 : (bs.take 20).getD 13 0 = bs.getD 13 0 := getD_take20 bs 13 (by norm_num)
  have hres : ((bs.getD 12 0 * 256 + bs.getD 13 0) >>> 9) &&& 7 ≠ 0 := by
    rw [Nat.shiftRight_eq_div_pow, and_7_eq_mod]
    rw [Nat.testBit_to_div_mod, Nat.testBit_to_div_mod, Nat.testBit_to_div_mod] at hbit
    norm_num at hbit ⊢
    omega
  simp only [LayersTcp.from_bytes, TcpUtils.TCP_HEADER_LENGTH_BYTES,
    TcpUtils.TCP_HEADER_LENGTH, h20, e12, e13]
  rw [if_neg (by norm_num), if_pos hres]

theorem c5_witness :
    20 ≤ c5_input.length ∧
    (c5_input.getD 12 0 * 256 + c5_input.getD 13 0).testBit 9 ∧
    LayersTcp.from_bytes c5_input = .error .malformed_header :=
  ⟨by decide, by decide,
    c5_reserved_bits_rejected c5_input (by decide) (Or.inl (by decide))⟩

/-- C6 counterexample: on a 20-byte input with data offset 4 (below 5) and
zero reserved bits, from_bytes does not fail at all; it returns a packet,
so the claim that it fails on a negative options length is false. -/
theorem c6_counterexample :
    LayersTcp.from_bytes c6_input =
      .ok { source_port := 0, dest_port := 0, sequence_number := 0, ack_number := 0,
            flags := ⟨0⟩, win_size := 0, urg_pointer := 0, options := ⟨[]⟩, payload := [],
            underlying_packet := none, upper_layer := none } := by
  decide

/-- C6 (amended): the code has no negative-options-length check; the
negative value is used as a Python slice bound counting from the end of
the remainder. On a 20-byte input with data offset below 5 and zero
reserved bits, from_bytes therefore returns a packet with empty options
and empty payload instead of failing. -/
theorem c6_negative_offset_returns_packet (bs : List Nat) (hlen : bs.length = 20)
    (hbytes : ∀ b ∈ bs, b < 256)
    (hres : ((bs.getD 12 0 * 256 + bs.getD 13 0) >>> 9) &&& 7 = 0)
    (hoff : (bs.getD 12 0 * 256 + bs.getD 13 0) >>> 12 < 5) :
    ∃ p, LayersTcp.from_bytes bs = .ok p ∧ p.options = ⟨[]⟩ ∧ p.payload = [] := by
  have htake : bs.take 20 = bs := List.take_of_length_le (by omega)
  have hdrop : bs.drop 20 = [] := List.drop_eq_nil_of_le (by omega)
  have hsp : bs.getD 0 0 * 256 + bs.getD 1 0 ≤ 65535 := by
    have h0 := getD_lt_of_forall bs 0 (by omega) hbytes
    have h1 := getD_lt_of_forall bs 1 (by omega) hbytes
    omega
  have hdp : bs.getD 2 0 * 256 + bs.getD 3 0 ≤ 65535 := by
    have h0 := getD_lt_of_forall bs 2 (by omega) hbytes
    have h1 := getD_lt_of_forall bs 3 (by omega) hbytes
    omega
  simp only [LayersTcp.from_bytes, TcpUtils.TCP_HEADER_LENGTH_BYTES,
    TcpUtils.TCP_HEADER_LENGTH, htake, hdrop, hlen]
  rw [if_neg (by norm_num),
    if_neg (by simpa [List.getD, List.get?_eq_getElem?] using hres),
    py_slice_take_nil, py_slice_drop_nil]
  simp only [TcpOptions.from_bytes, List.length_nil, decode_options]
  unfold mk_tcp_packet TcpUtils.validate_port_num
  rw [if_pos (by constructor <;> omega), if_pos (by constructor <;> omega)]
  exact ⟨_, rfl, rfl, rfl⟩

theorem c6_witness :
    c6_input.length = 20 ∧
    (c6_input.getD 12 0 * 256 + c6_input.getD 13 0) >>> 12 < 5 ∧
    ∃ p, LayersTcp.from_bytes c6_input = .ok p ∧ p.options = ⟨[]⟩ ∧ p.payload = [] :=
  ⟨by decide, by decide,
    c6_negative_offset_returns_packet c6_input (by decide) (by decide) (by decide) (by decide)⟩

theorem encode_raw_nil : encode_raw [] = [] := rfl

theorem encode_raw_cons (o : TcpOption) (rest : List TcpOption) :
    encode_raw (o :: rest) = o.encode ++ encode_raw rest := by
  simp [encode_raw]

/-- Decoding inverts encoding on option lists that contain no EndOfList and
whose sized options are byte-representable, for any sufficient fuel. -/
theorem decode_encode : ∀ (opts : List TcpOption) (fuel : Nat),
    (∀ o ∈ opts, option_ok o = true) → (encode_raw opts).length ≤ fuel →
    decode_options fuel (encode_raw opts) = .ok opts := by
  intro opts
  induction opts with
  | nil =>
    intro fuel _ _
    cases fuel <;> rfl
  | cons o rest ih =>
    intro fuel hok hlen
    have hok_head : option_ok o = true := hok o (List.mem_cons_self o rest)
    have hok_rest : ∀ x ∈ rest, option_ok x = true :=
      fun x hx => hok x (List.mem_cons_of_mem o hx)
    rw [encode_raw_cons] at hlen ⊢
    cases o with
    | end_of_list => simp [option_ok] at hok_head
    | no_op =>
      simp only [TcpOption.encode, List.singleton_append] at hlen ⊢
      cases fuel with
      | zero => simp at hlen
      | succ n =>
        simp only [decode_options]
        rw [ih n hok_rest (by simp at hlen; omega)]
        rfl
    | sized kind value =>
      simp only [option_ok, Bool.and_eq_true, decide_eq_true_eq] at hok_head
      obtain ⟨⟨⟨hk2, _⟩, hvlen⟩, _⟩ := hok_head
      obtain ⟨k, rfl⟩ : ∃ k, kind = k + 2 := ⟨kind - 2, by omega⟩
      simp only [TcpOption.encode, List.cons_append] at hlen ⊢
      cases fuel with
      | zero => simp at hlen
      | succ n =>
        simp only [decode_options]
        rw [if_neg (by omega)]
        rw [if_neg (by simp)]
        have hv2 : 2 + value.length - 2 = value.length := by omega
        rw [hv2, List.take_left, List.drop_left]
        rw [ih n hok_rest (by simp at hlen ⊢; omega)]
        rfl

/-- The summation loop succeeds on every even-length input. -/
theorem sum_words_total : ∀ (l : List Nat), l.length % 2 = 0 →
    ∃ s, Utils.sum_words l = some s
  | [] => fun _ => ⟨0, rfl⟩
  | [_] => fun h => by simp at h
  | a :: b :: rest => fun h => by
    obtain ⟨s, hs⟩ := sum_words_total rest (by simp [List.length_cons] at h ⊢; omega)
    exact ⟨((a <<< 8) + b) + s, by simp [Utils.sum_words, hs]⟩

/-- The checksum engine returns a 16-bit value on every even-length input. -/
theorem calc_checksum_even (l : List Nat) (h : l.length % 2 = 0) :
    ∃ ck, Utils.calc_checksum l = some ck ∧ ck ≤ 65535 := by
  obtain ⟨s, hs⟩ := sum_words_total l h
  exact ⟨65535 - (s + (s >>> 16)) % 65536, by simp [Utils.calc_checksum, hs], by omega⟩

/-- Writing the checksum into header positions 16 and 17 of the packed
header replaces the zero placeholder. -/
theorem set_checksum (sp dp seq ack dof win urg x y : Nat) :
    ((pack16 sp ++ pack16 dp ++ pack32 seq ++ pack32 ack ++ pack16 dof ++ pack16 win ++
        pack16 0 ++ pack16 urg).set 16 x).set 17 y =
      pack16 sp ++ pack16 dp ++ pack32 seq ++ pack32 ack ++ pack16 dof ++ pack16 win ++
        [x, y] ++ pack16 urg := rfl

/-- Evaluation of from_bytes on an input presented as twenty header bytes
followed by a tail, by pure unfolding. -/
theorem from_bytes_cons (b0 b1 b2 b3 b4 b5 b6 b7 b8 b9 b10 b11 b12 b13 b14 b15 b16 b17
    b18 b19 : Nat) (tail : List Nat) :
    LayersTcp.from_bytes (b0 :: b1 :: b2 :: b3 :: b4 :: b5 :: b6 :: b7 :: b8 :: b9 :: b10 ::
        b11 :: b12 :: b13 :: b14 :: b15 :: b16 :: b17 :: b18 :: b19 :: tail) =
      (if ((b12 * 256 + b13) >>> 9) &&& 7 ≠ 0 then .error .malformed_header
       else
        match TcpOptions.from_bytes (py_slice_take tail
            (((((b12 * 256 + b13) >>> 12 : Nat) : Int) - 5) * 4)) with
        | .error e => .error e
        | .ok options =>
          mk_tcp_packet (b0 * 256 + b1) (b2 * 256 + b3)
            (((b4 * 256 + b5) * 256 + b6) * 256 + b7)
            (((b8 * 256 + b9) * 256 + b10) * 256 + b11)
            (TcpControlBits.from_int ((b12 * 256 + b13) &&& 511))
            (b14 * 256 + b15) (b18 * 256 + b19) options
            (py_slice_drop tail (((((b12 * 256 + b13) >>> 12 : Nat) : Int) - 5) * 4))) := rfl

/-- C2 counterexample: on a valid packet whose options are the single
option NoOp, serialization appends alignment padding and parsing returns
the padding as parsed options, so the round trip does not reproduce the
options field value for value. -/
theorem c2_counterexample :
    ((LayersTcp.to_bytes pad_packet).bind LayersTcp.from_bytes).map (fun q => q.options) =
      .ok ⟨[.no_op, .no_op, .no_op, .no_op]⟩ ∧
    pad_packet.options = ⟨[.no_op]⟩ ∧
    (⟨[.no_op, .no_op, .no_op, .no_op]⟩ : TcpOptions) ≠ ⟨[.no_op]⟩ := by
  decide

/-- C2 (amended): for every packet whose fields are in the range of their
wire formats, whose encoded options are already 32-bit aligned (so no
padding is appended) and contain no EndOfList, whose payload has even
length (the checksum engine fails on odd input), whose total length passes
the length validator, and which carries a well-formed underlying IPv4
reference, parsing the serialization returns a packet with exactly the
same source and destination ports, sequence and acknowledgment numbers,
flags, window size, urgent pointer, options and payload; only the two
layer references are not reproduced. -/
theorem c2_round_trip (p : TcpPacket) (h : packet_ok p = true) :
    ∃ q, (LayersTcp.to_bytes p).bind LayersTcp.from_bytes = .ok q ∧
      packet_fields q = packet_fields p := by
  rw [packet_ok] at h
  simp only [Bool.and_eq_true, decide_eq_true_eq, List.all_eq_true] at h
  obtain ⟨⟨⟨⟨⟨⟨⟨⟨⟨⟨⟨⟨⟨hsp, hdp⟩, hseq⟩, hack⟩, hfl⟩, hwin⟩, hurg⟩, hopt⟩, halign⟩, h40⟩,
    hpb⟩, hpl⟩, htot⟩, hipok⟩ := h
  have hopt' : ∀ o ∈ p.options.options, option_ok o = true := by
    intro o ho
    exact hopt o ho
  obtain ⟨ip, hu⟩ : ∃ ip, p.underlying_packet = some ip := by
    cases hup : p.underlying_packet with
    | none => rw [hup] at hipok; simp [ip_ok] at hipok
    | some ip => exact ⟨ip, rfl⟩
  rw [hu] at hipok
  simp only [ip_ok, Bool.and_eq_true, beq_iff_eq] at hipok
  obtain ⟨hsa, hda⟩ := hipok
  have hob : p.options.to_bytes = encode_raw p.options.options := by
    simp only [TcpOptions.to_bytes]
    rw [halign]
    simp
  have hd15 : 5 + (encode_raw p.options.options).length / 4 ≤ 15 := by omega
  have hdof_eq : (5 + (encode_raw p.options.options).length / 4) <<< 12 ||| p.flags.flags =
      4096 * (5 + (encode_raw p.options.options).length / 4) + p.flags.flags :=
    lor_shiftLeft_12 _ _ (by omega)
  simp only [LayersTcp.to_bytes, hob, TcpUtils.TCP_HEADER_LENGTH,
    TcpUtils.TCP_HEADER_LENGTH_BYTES, get_pseudo_header, hu, TcpUtils.calc_tcp_checksum]
  rw [if_neg (show ¬((encode_raw p.options.options).length % 4 ≠ 0) by omega)]
  rw [if_pos (show _ ∧ _ ∧ _ ∧ _ ∧ _ ∧ _ ∧ _ from
    ⟨hsp, hdp, hseq, hack, by rw [hdof_eq]; omega, hwin, hurg⟩)]
  have heven : (ip.source_addr_raw ++ ip.dest_addr_raw ++ [0, ip.protocol] ++
      pack16 ((5 + (encode_raw p.options.options).length / 4) * 4 + p.payload.length) ++
      (pack16 p.source_port ++ pack16 p.dest_port ++ pack32 p.sequence_number ++
        pack32 p.ack_number ++
        pack16 ((5 + (encode_raw p.options.options).length / 4) <<< 12 ||| p.flags.flags) ++
        pack16 p.win_size ++ pack16 0 ++ pack16 p.urg_pointer) ++
      (encode_raw p.options.options ++ p.payload)).length % 2 = 0 := by
    simp [pack16, pack32, hsa, hda]
    omega
  split
  next hnone =>
    obtain ⟨ck, hck, _⟩ := calc_checksum_even _ heven
    rw [hck] at hnone
    simp at hnone
  next ck hsome =>
    clear hsome
    rw [set_checksum]
    simp only [TcpUtils.validate_packet_length]
    rw [if_pos (show _ ∧ _ from by constructor <;> simp [pack16, pack32] <;> omega)]
    simp only [Except.bind]
    rw [show (pack16 p.source_port ++ pack16 p.dest_port ++ pack32 p.sequence_number ++
        pack32 p.ack_number ++
        pack16 ((5 + (encode_raw p.options.options).length / 4) <<< 12 ||| p.flags.flags) ++
        pack16 p.win_size ++ [ck / 256, ck % 256] ++ pack16 p.urg_pointer ++
        encode_raw p.options.options ++ p.payload) =
      p.source_port / 256 % 256 :: p.source_port % 256 ::
      p.dest_port / 256 % 256 :: p.dest_port % 256 ::
      p.sequence_number / 16777216 % 256 :: p.sequence_number / 65536 % 256 ::
      p.sequence_number / 256 % 256 :: p.sequence_number % 256 ::
      p.ack_number / 16777216 % 256 :: p.ack_number / 65536 % 256 ::
      p.ack_number / 256 % 256 :: p.ack_number % 256 ::
      ((5 + (encode_raw p.options.options).length / 4) <<< 12 ||| p.flags.flags) / 256 % 256 ::
      ((5 + (encode_raw p.options.options).length / 4) <<< 12 ||| p.flags.flags) % 256 ::
      p.win_size / 256 % 256 :: p.win_size % 256 ::
      ck / 256 :: ck % 256 ::
      p.urg_pointer / 256 % 256 :: p.urg_pointer % 256 ::
      (encode_raw p.options.options ++ p.payload) from by
        simp [pack16, pack32]]
    rw [from_bytes_cons]
    have hdof_lt : (5 + (encode_raw p.options.options).length / 4) <<< 12 ||| p.flags.flags
        < 65536 := by
      rw [hdof_eq]
      omega
    rw [show ((5 + (encode_raw p.options.options).length / 4) <<< 12 ||| p.flags.flags) / 256
          % 256 * 256 +
        ((5 + (encode_raw p.options.options).length / 4) <<< 12 ||| p.flags.flags) % 256 =
        (5 + (encode_raw p.options.options).length / 4) <<< 12 ||| p.flags.flags from by
      omega]
    rw [if_neg (show ¬((((5 + (encode_raw p.options.options).length / 4) <<< 12 |||
        p.flags.flags) >>> 9) &&& 7 ≠ 0) from by
      rw [hdof_eq, Nat.shiftRight_eq_div_pow, and_7_eq_mod]
      norm_num
      omega)]
    rw [show ((5 + (encode_raw p.options.options).length / 4) <<< 12 ||| p.flags.flags) >>> 12
        = 5 + (encode_raw p.options.options).length / 4 from by
      rw [hdof_eq, Nat.shiftRight_eq_div_pow]
      norm_num
      omega]
    rw [show (((5 + (encode_raw p.options.options).length / 4 : Nat) : Int) - 5) * 4 =
        ((encode_raw p.options.options).length : Int) from by
      push_cast
      omega]
    rw [show py_slice_take (encode_raw p.options.options ++ p.payload)
        ((encode_raw p.options.options).length : Int) = encode_raw p.options.options from by
      unfold py_slice_take
      rw [if_pos (Int.natCast_nonneg _)]
      simp [List.take_left]]
    rw [show py_slice_drop (encode_raw p.options.options ++ p.payload)
        ((encode_raw p.options.options).length : Int) = p.payload from by
      unfold py_slice_drop
      rw [if_pos (Int.natCast_nonneg _)]
      simp [List.drop_left]]
    simp only [show TcpOptions.from_bytes (encode_raw p.options.options) =
        .ok ⟨p.options.options⟩ from by
      unfold TcpOptions.from_bytes
      rw [decode_encode p.options.options _ hopt' (le_refl _)]
      rfl]
    rw [show ((p.source_port / 256 % 256 : Nat) : Int) * 256 +
        ((p.source_port % 256 : Nat) : Int) = ((p.source_port : Nat) : Int) from by
      push_cast
      omega]
    rw [show ((p.dest_port / 256 % 256 : Nat) : Int) * 256 +
        ((p.dest_port % 256 : Nat) : Int) = ((p.dest_port : Nat) : Int) from by
      push_cast
      omega]
    rw [show ((p.sequence_number / 16777216 % 256 * 256 + p.sequence_number / 65536 % 256) *
        256 + p.sequence_number / 256 % 256) * 256 + p.sequence_number % 256 =
        p.sequence_number from by omega]
    rw [show ((p.ack_number / 16777216 % 256 * 256 + p.ack_number / 65536 % 256) * 256 +
        p.ack_number / 256 % 256) * 256 + p.ack_number % 256 = p.ack_number from by omega]
    rw [show p.win_size / 256 % 256 * 256 + p.win_size % 256 = p.win_size from by omega]
    rw [show p.urg_pointer / 256 % 256 * 256 + p.urg_pointer % 256 = p.urg_pointer from by
      omega]
    rw [show ((5 + (encode_raw p.options.options).length / 4) <<< 12 ||| p.flags.flags) &&&
        511 = p.flags.flags from by
      rw [hdof_eq, and_511_eq_mod]
      omega]
    rw [from_int_small _ hfl]
    simp only [mk_tcp_packet, TcpUtils.validate_port_num]
    rw [if_pos (show (0 : Int) ≤ ↑p.source_port ∧ (↑p.source_port : Int) ≤ 65535 from by
      constructor <;> omega)]
    rw [if_pos (show (0 : Int) ≤ ↑p.dest_port ∧ (↑p.dest_port : Int) ≤ 65535 from by
      constructor <;> omega)]
    exact ⟨_, rfl, by simp [packet_fields]⟩

theorem c2_round_trip_witness :
    packet_ok sample_packet = true ∧
    ∃ q, (LayersTcp.to_bytes sample_packet).bind LayersTcp.from_bytes = .ok q ∧
      packet_fields q = packet_fields sample_packet :=
  ⟨by decide, c2_round_trip sample_packet (by decide)⟩

theorem c7_witness :
    LayersTcp.tcp_packet_eq sample_packet sample_packet =
      LayersTransport.tcp_packet_eq sample_packet sample_packet :=
  c7_equivalence_amended.2.2 sample_packet sample_packet (by simp)

end PortScanner
